import Mathlib

/-!
Verification of the dispatch-dashboard core: the `run_supply_needs` SQL view
(per-run supply deficits), the dashboard's read/registration operations, and
its time-slot grouping.  Tables are embedded as lists of rows; `CURRENT_DATE`
is an explicit `today` parameter; `DATE(timestamp)` is truncation of a
seconds-since-epoch timestamp to its day number.
-/

/-- A row of the `daily_container_counts` fact table: a dated count record per
store (keyed by `department_number`) of six supply quantities. -/
structure CountFact where
  department_number : String
  created_at : Nat
  sleeves : Int
  caps : Int
  canvases : Int
  totes : Int
  hardlines_raw : Int
  softlines_raw : Int
deriving Repr, DecidableEq

/-- SQL `DATE(created_at)`: truncate a timestamp (seconds since epoch) to its
day number. -/
def dateOf (t : Nat) : Nat := t / 86400

/-- A row of the `store_supplies` reference table: the par (target) level per
store per supply type. -/
structure StoreSupplyRow where
  department_number : String
  sleeves : Int
  caps : Int
  canvases : Int
  totes : Int
  hardlines_raw : Int
  softlines_raw : Int
deriving Repr, DecidableEq

/-- A row of the `active_delivery_runs` run registry. -/
structure DeliveryRun where
  id : Nat
  store_name : String
  department_number : String
  run_type : String
  truck_type : String
  status : String
  position : Nat
  driver_id : Option Nat
  start_time : Option Nat
  preload_time : Option Nat
  complete_time : Option Nat
  depart_time : Option Nat
  created_at : Nat
deriving Repr, DecidableEq

/-- An output row of the `run_supply_needs` view: run identity, status and
timestamps plus the six signed deficits. -/
structure RunSupplyRow where
  run_id : Nat
  store_name : String
  department_number : String
  run_type : String
  type : String
  status : String
  position : Nat
  driver_id : Option Nat
  start_time : Option Nat
  preload_time : Option Nat
  complete_time : Option Nat
  depart_time : Option Nat
  created_at : Nat
  sleeves_needed : Int
  caps_needed : Int
  canvases_needed : Int
  totes_needed : Int
  hardlines_needed : Int
  softlines_needed : Int
deriving Repr, DecidableEq

/-- The per-store aggregate produced by the `store_totals` CTE. -/
structure StoreTotals where
  total_sleeves : Int
  total_caps : Int
  total_canvases : Int
  total_totes : Int
  total_hardlines : Int
  total_softlines : Int
deriving Repr, DecidableEq

/-- The `WHERE DATE(created_at) = CURRENT_DATE` filter applied to the count
fact table by both CTEs of the view. -/
def todaysCounts (today : Nat) (counts : List CountFact) : List CountFact :=
  counts.filter (fun f => dateOf f.created_at == today)

/-- The `daily_counts` CTE of the view (`SELECT DISTINCT department_number`
over today's facts).  It is declared by the view but never referenced in its
final `SELECT`, so nothing downstream depends on it. -/
def daily_counts (today : Nat) (counts : List CountFact) : List String :=
  ((todaysCounts today counts).map CountFact.department_number).dedup

/-- The `store_totals` CTE, looked up at a department: `GROUP BY` yields a
group for a department exactly when it has at least one fact dated today, and
the group sums each of the six quantities independently. -/
def store_totals (today : Nat) (counts : List CountFact) (dept : String) :
    Option StoreTotals :=
  let fs := (todaysCounts today counts).filter (fun f => f.department_number == dept)
  if fs.isEmpty then none
  else some
    { total_sleeves := (fs.map CountFact.sleeves).sum
      total_caps := (fs.map CountFact.caps).sum
      total_canvases := (fs.map CountFact.canvases).sum
      total_totes := (fs.map CountFact.totes).sum
      total_hardlines := (fs.map CountFact.hardlines_raw).sum
      total_softlines := (fs.map CountFact.softlines_raw).sum }

/-- Modelled from the spec: the `store_supplies` table definition is not in the
provided material (only the view that joins it).  Per the spec's data model a
`StoreSupplyLevel` holds "the par (target) level per store per supply type",
i.e. the table is keyed by store, so the view's `LEFT JOIN ... ON
r.department_number = ss.department_number` is the lookup of the unique
matching row, `none` when the store has no row. -/
def storeSuppliesRow (supplies : List StoreSupplyRow) (dept : String) :
    Option StoreSupplyRow :=
  supplies.find? (fun s => s.department_number == dept)

/-- SQL `COALESCE(x, 0)`. -/
def coalesce (x : Option Int) : Int := x.getD 0

/-- The `SELECT` list of the view for one registry row `r`: copy the run's
columns and compute each deficit as
`COALESCE(ss.par, 0) - COALESCE(st.total, 0)`. -/
def mkRunSupplyRow (today : Nat) (counts : List CountFact)
    (supplies : List StoreSupplyRow) (r : DeliveryRun) : RunSupplyRow :=
  let st := store_totals today counts r.department_number
  let ss := storeSuppliesRow supplies r.department_number
  { run_id := r.id
    store_name := r.store_name
    department_number := r.department_number
    run_type := r.run_type
    type := r.truck_type
    status := r.status
    position := r.position
    driver_id := r.driver_id
    start_time := r.start_time
    preload_time := r.preload_time
    complete_time := r.complete_time
    depart_time := r.depart_time
    created_at := r.created_at
    sleeves_needed := coalesce (ss.map StoreSupplyRow.sleeves) -
      coalesce (st.map StoreTotals.total_sleeves)
    caps_needed := coalesce (ss.map StoreSupplyRow.caps) -
      coalesce (st.map StoreTotals.total_caps)
    canvases_needed := coalesce (ss.map StoreSupplyRow.canvases) -
      coalesce (st.map StoreTotals.total_canvases)
    totes_needed := coalesce (ss.map StoreSupplyRow.totes) -
      coalesce (st.map StoreTotals.total_totes)
    hardlines_needed := coalesce (ss.map StoreSupplyRow.hardlines_raw) -
      coalesce (st.map StoreTotals.total_hardlines)
    softlines_needed := coalesce (ss.map StoreSupplyRow.softlines_raw) -
      coalesce (st.map StoreTotals.total_softlines) }

/-- The `run_supply_needs` view: one computed row for each registry row whose
creation date is the current date (`WHERE DATE(r.created_at) = CURRENT_DATE`). -/
def run_supply_needs (today : Nat) (counts : List CountFact)
    (runs : List DeliveryRun) (supplies : List StoreSupplyRow) :
    List RunSupplyRow :=
  (runs.filter (fun r => dateOf r.created_at == today)).map
    (mkRunSupplyRow today counts supplies)

/-- The spec's "coalesce(summedCount, 0)" for one supply type: the sum of the
selected quantity over today's count facts for the given store (`0` when there
are none, which is what the coalesce of the grouped sum yields). -/
def summedCount (sel : CountFact → Int) (today : Nat) (counts : List CountFact)
    (dept : String) : Int :=
  (((todaysCounts today counts).filter (fun f => f.department_number == dept)).map sel).sum

/-- The spec's "coalesce(parLevel, 0)" for one supply type: the store's par
level for the selected supply type, `0` when the store has no supply row. -/
def parLevel (sel : StoreSupplyRow → Int) (supplies : List StoreSupplyRow)
    (dept : String) : Int :=
  ((storeSuppliesRow supplies dept).map sel).getD 0

/-- A reference store row as the dashboard's `Store` interface sees it. -/
structure Store where
  id : String
  store_name : String
  department_number : String
deriving Repr, DecidableEq

/-- The parameter record of the `add_delivery_run` remote procedure call. -/
structure AddRunParams where
  p_run_type : String
  p_store_id : String
  p_store_name : String
  p_department_number : String
  p_truck_type : String
deriving Repr, DecidableEq

/-- The run-type derivation in `addRun`: JavaScript
`timeSlot.split(' ')[0]`, i.e. the characters of the label strictly before its
first space character (the whole label when it contains no space). -/
def deriveRunType (timeSlot : String) : String :=
  String.mk (timeSlot.toList.takeWhile (fun c => c != ' '))

/-- The creation request `addRun` submits for a chosen store and time-slot
label: the derived run type, the store's identity, name and department code,
and the fixed truck-type constant. -/
def addRunRequest (store : Store) (timeSlot : String) : AddRunParams :=
  { p_run_type := deriveRunType timeSlot
    p_store_id := store.id
    p_store_name := store.store_name
    p_department_number := store.department_number
    p_truck_type := "box_truck" }

/-- The three time-slot sections rendered by the dashboard; `addRun` is only
ever invoked with one of their labels. -/
inductive RunTimeSlot
  | morning
  | afternoon
  | adc
deriving Repr, DecidableEq

/-- The label of a time-slot section, the `RunTime` string of the source. -/
def RunTimeSlot.label : RunTimeSlot → String
  | .morning => "Morning Runs"
  | .afternoon => "Afternoon Runs"
  | .adc => "ADC Runs"

/-- The first whitespace-delimited token of a string, as the spec phrases the
run-type derivation: skip leading whitespace, then take characters up to the
next whitespace. -/
def firstWhitespaceToken (s : String) : String :=
  String.mk ((s.toList.dropWhile Char.isWhitespace).takeWhile
    (fun c => !c.isWhitespace))

/-- The record returned by `groupRunsByTime`: one list of rows per time-slot
section key. -/
structure GroupedRuns where
  morningRuns : List RunSupplyRow
  afternoonRuns : List RunSupplyRow
  adcRuns : List RunSupplyRow
deriving Repr, DecidableEq

/-- The dashboard's `groupRunsByTime`: three filters on the exact `run_type`
string. -/
def groupRunsByTime (runs : List RunSupplyRow) : GroupedRuns :=
  { morningRuns := runs.filter (fun run => run.run_type == "Morning")
    afternoonRuns := runs.filter (fun run => run.run_type == "Afternoon")
    adcRuns := runs.filter (fun run => run.run_type == "ADC") }

/-- The dashboard component's fetched state: the two loaded lists, the loading
flag and the error message, plus `requests`, which counts the remote reads
issued so far (each `fetch` function awaits exactly one query, on success and
on failure alike, so an invocation always adds exactly one). -/
structure DashboardState where
  runs : List RunSupplyRow
  stores : List Store
  loading : Bool
  error : Option String
  requests : Nat
deriving Repr, DecidableEq

/-- The database's answer to a read: `Except.error` when the query fails,
otherwise the possibly-null row set (`data` may be null, the component
substitutes `[]`). -/
def readResult (α : Type) : Type := Except Unit (Option α)

/-- State update of `fetchStores`: on success store `data` (or `[]` when
null); on failure set the generic message and touch nothing else.  Either way
exactly one query was issued. -/
def fetchStoresUpdate (result : readResult (List Store))
    (s : DashboardState) : DashboardState :=
  match result with
  | .ok data => { s with stores := data.getD [], requests := s.requests + 1 }
  | .error _ =>
      { s with error := some "Failed to fetch stores", requests := s.requests + 1 }

/-- State update of `fetchRuns`: on success store `data` (or `[]` when null);
on failure set the generic message; the `finally` clause clears `loading` in
both cases.  Either way exactly one query was issued. -/
def fetchRunsUpdate (result : readResult (List RunSupplyRow))
    (s : DashboardState) : DashboardState :=
  match result with
  | .ok data =>
      { s with runs := data.getD [], loading := false, requests := s.requests + 1 }
  | .error _ =>
      { s with
        error := some "Failed to fetch delivery runs"
        loading := false
        requests := s.requests + 1 }

/-- Boolean comparator of the stores read: `ORDER BY store_name` ascending. -/
def storeNameLe (a b : Store) : Bool := decide (a.store_name ≤ b.store_name)

/-- Boolean comparator of the runs read: `ORDER BY created_at DESC`. -/
def createdAtDesc (a b : RunSupplyRow) : Bool := decide (b.created_at ≤ a.created_at)

/-- The stores read (`from('stores').select('*').order('store_name')`): all
reference store rows, sorted ascending by display name by the database. -/
def fetchStoresQuery (stores : List Store) : List Store :=
  stores.mergeSort storeNameLe

/-- The runs read (`from('run_supply_needs').select('*').order('created_at',
descending)`): all view rows, sorted newest-run-first by the database. -/
def fetchRunsQuery (rows : List RunSupplyRow) : List RunSupplyRow :=
  rows.mergeSort createdAtDesc

/-- The database state the aggregator reads: the current date and the three
relations the view mentions. -/
structure DbState where
  today : Nat
  counts : List CountFact
  runs : List DeliveryRun
  supplies : List StoreSupplyRow
deriving Repr, DecidableEq

/-- One invocation of the aggregator against a database state: a `SELECT` on
the view returns the computed rows and the state it leaves behind. -/
def invokeAggregator (s : DbState) : List RunSupplyRow × DbState :=
  (run_supply_needs s.today s.counts s.runs s.supplies, s)

/-- The seed rows the `foggy_union` migration inserts into the `stores` table:
department number, display name, and the six par levels. -/
structure StoreTableRow where
  department_number : String
  name : String
  sleeves : Int
  caps : Int
  canvases : Int
  totes : Int
  hardlines_raw : Int
  softlines_raw : Int
deriving Repr, DecidableEq

/-- The initial data of the `stores` table, row for row from the migration. -/
def seedStores : List StoreTableRow :=
  [⟨"9011", "Tri-County", 40, 80, 12, 21, 20, 45⟩,
   ⟨"9012", "Cheviot", 10, 20, 13, 12, 5, 5⟩,
   ⟨"9014", "Independence", 11, 22, 11, 13, 10, 10⟩,
   ⟨"9015", "Hamilton", 10, 20, 22, 22, 12, 12⟩,
   ⟨"9016", "Oakley", 21, 42, 21, 34, 20, 20⟩,
   ⟨"9017", "Lebanon", 20, 40, 34, 33, 17, 17⟩,
   ⟨"9018", "Loveland", 30, 60, 32, 24, 20, 20⟩,
   ⟨"9019", "Bellevue", 26, 52, 22, 26, 15, 15⟩,
   ⟨"9020", "Harrison", 32, 64, 35, 55, 12, 12⟩,
   ⟨"9021", "Florence", 34, 68, 54, 20, 20, 13⟩,
   ⟨"9023", "Batesville", 32, 64, 38, 45, 12, 12⟩,
   ⟨"9024", "Fairfield", 33, 66, 86, 12, 20, 20⟩,
   ⟨"9025", "Mason", 46, 92, 54, 11, 6, 6⟩,
   ⟨"9026", "Beechmont", 4, 8, 76, 25, 18, 18⟩,
   ⟨"9027", "Mt. Washington", 3, 6, 54, 56, 6, 6⟩,
   ⟨"9029", "Montgomery", 44, 88, 57, 47, 6, 6⟩,
   ⟨"9030", "Oxford", 56, 112, 56, 56, 6, 6⟩,
   ⟨"9031", "West Chester", 43, 86, 46, 37, 14, 14⟩,
   ⟨"9032", "Lawrenceburg", 12, 24, 28, 38, 10, 10⟩,
   ⟨"9033", "Deerfield", 45, 90, 51, 19, 20, 20⟩]

/-- Read a `stores` seed row as a par-level row of the shape the view joins
(the spec's open question notes the two store shapes carry the same six par
levels). -/
def StoreTableRow.supplyRow (s : StoreTableRow) : StoreSupplyRow :=
  ⟨s.department_number, s.sleeves, s.caps, s.canvases, s.totes,
    s.hardlines_raw, s.softlines_raw⟩

/-- Coalescing the grouped sum of a supply quantity equals the plain sum over
today's facts for the store: the group is absent exactly when that fact list
is empty, and an empty sum is `0`. -/
theorem store_totals_getD_sleeves (today : Nat) (counts : List CountFact)
    (dept : String) :
    ((store_totals today counts dept).map StoreTotals.total_sleeves).getD 0
      = summedCount CountFact.sleeves today counts dept := by
  unfold store_totals summedCount
  by_cases h :
      ((todaysCounts today counts).filter (fun f => f.department_number == dept)).isEmpty
  · rw [List.isEmpty_iff] at h
    simp [h]
  · simp [h]

/-- Grouped-sum coalescing for caps, as for sleeves. -/
theorem store_totals_getD_caps (today : Nat) (counts : List CountFact)
    (dept : String) :
    ((store_totals today counts dept).map StoreTotals.total_caps).getD 0
      = summedCount CountFact.caps today counts dept := by
  unfold store_totals summedCount
  by_cases h :
      ((todaysCounts today counts).filter (fun f => f.department_number == dept)).isEmpty
  · rw [List.isEmpty_iff] at h
    simp [h]
  · simp [h]

/-- Grouped-sum coalescing for canvases, as for sleeves. -/
theorem store_totals_getD_canvases (today : Nat) (counts : List CountFact)
    (dept : String) :
    ((store_totals today counts dept).map StoreTotals.total_canvases).getD 0
      = summedCount CountFact.canvases today counts dept := by
  unfold store_totals summedCount
  by_cases h :
      ((todaysCounts today counts).filter (fun f => f.department_number == dept)).isEmpty
  · rw [List.isEmpty_iff] at h
    simp [h]
  · simp [h]

/-- Grouped-sum coalescing for totes, as for sleeves. -/
theorem store_totals_getD_totes (today : Nat) (counts : List CountFact)
    (dept : String) :
    ((store_totals today counts dept).map StoreTotals.total_totes).getD 0
      = summedCount CountFact.totes today counts dept := by
  unfold store_totals summedCount
  by_cases h :
      ((todaysCounts today counts).filter (fun f => f.department_number == dept)).isEmpty
  · rw [List.isEmpty_iff] at h
    simp [h]
  · simp [h]

/-- Grouped-sum coalescing for hardlines, as for sleeves. -/
theorem store_totals_getD_hardlines (today : Nat) (counts : List CountFact)
    (dept : String) :
    ((store_totals today counts dept).map StoreTotals.total_hardlines).getD 0
      = summedCount CountFact.hardlines_raw today counts dept := by
  unfold store_totals summedCount
  by_cases h :
      ((todaysCounts today counts).filter (fun f => f.department_number == dept)).isEmpty
  · rw [List.isEmpty_iff] at h
    simp [h]
  · simp [h]

/-- Grouped-sum coalescing for softlines, as for sleeves. -/
theorem store_totals_getD_softlines (today : Nat) (counts : List CountFact)
    (dept : String) :
    ((store_totals today counts dept).map StoreTotals.total_softlines).getD 0
      = summedCount CountFact.softlines_raw today counts dept := by
  unfold store_totals summedCount
  by_cases h :
      ((todaysCounts today counts).filter (fun f => f.department_number == dept)).isEmpty
  · rw [List.isEmpty_iff] at h
    simp [h]
  · simp [h]

/-- C1.  Every output row of the aggregator carries, for each of the six
supply types, exactly `coalesce(parLevel, 0) - coalesce(summedCount, 0)` for
its run's store, with the signed result passed through unmodified (the
equality is over `Int`, so a negative deficit is preserved, never clamped). -/
theorem run_supply_needs_deficit_formula (today : Nat) (counts : List CountFact)
    (runs : List DeliveryRun) (supplies : List StoreSupplyRow)
    (row : RunSupplyRow)
    (hrow : row ∈ run_supply_needs today counts runs supplies) :
    row.sleeves_needed = parLevel StoreSupplyRow.sleeves supplies row.department_number
        - summedCount CountFact.sleeves today counts row.department_number
    ∧ row.caps_needed = parLevel StoreSupplyRow.caps supplies row.department_number
        - summedCount CountFact.caps today counts row.department_number
    ∧ row.canvases_needed = parLevel StoreSupplyRow.canvases supplies row.department_number
        - summedCount CountFact.canvases today counts row.department_number
    ∧ row.totes_needed = parLevel StoreSupplyRow.totes supplies row.department_number
        - summedCount CountFact.totes today counts row.department_number
    ∧ row.hardlines_needed = parLevel StoreSupplyRow.hardlines_raw supplies row.department_number
        - summedCount CountFact.hardlines_raw today counts row.department_number
    ∧ row.softlines_needed = parLevel StoreSupplyRow.softlines_raw supplies row.department_number
        - summedCount CountFact.softlines_raw today counts row.department_number := by
  unfold run_supply_needs at hrow
  rw [List.mem_map] at hrow
  obtain ⟨r, hr, rfl⟩ := hrow
  refine ⟨?_, ?_, ?_, ?_, ?_, ?_⟩ <;>
    simp [mkRunSupplyRow, parLevel, coalesce, store_totals_getD_sleeves,
      store_totals_getD_caps, store_totals_getD_canvases, store_totals_getD_totes,
      store_totals_getD_hardlines, store_totals_getD_softlines]

/-- A count fact dated on day 0 for store 9011. -/
def sampleFact : CountFact := ⟨"9011", 0, 5, 1, 2, 3, 4, 6⟩

/-- A count fact dated on day 1 (stale relative to day 0) for store 9011. -/
def staleFact : CountFact := ⟨"9011", 86400, 100, 100, 100, 100, 100, 100⟩

/-- A registry row for store 9011 created on day 0. -/
def sampleRun : DeliveryRun :=
  ⟨1, "Tri-County", "9011", "Morning", "Box Truck", "pending", 0,
    none, none, none, none, none, 0⟩

/-- The view row computed for `sampleRun` on day 0 from `sampleFact` alone,
with no supply rows at all. -/
def sampleOutRow : RunSupplyRow := mkRunSupplyRow 0 [sampleFact] [] sampleRun

/-- Witness for C1 at day 0 with one count fact, one run and no supply rows;
the final conjunct shows the negative deficit is passed through unclamped. -/
theorem run_supply_needs_deficit_formula_witness :
    sampleOutRow ∈ run_supply_needs 0 [sampleFact] [sampleRun] []
    ∧ (sampleOutRow.sleeves_needed
          = parLevel StoreSupplyRow.sleeves [] sampleOutRow.department_number
            - summedCount CountFact.sleeves 0 [sampleFact] sampleOutRow.department_number
        ∧ sampleOutRow.caps_needed
          = parLevel StoreSupplyRow.caps [] sampleOutRow.department_number
            - summedCount CountFact.caps 0 [sampleFact] sampleOutRow.department_number
        ∧ sampleOutRow.canvases_needed
          = parLevel StoreSupplyRow.canvases [] sampleOutRow.department_number
            - summedCount CountFact.canvases 0 [sampleFact] sampleOutRow.department_number
        ∧ sampleOutRow.totes_needed
          = parLevel StoreSupplyRow.totes [] sampleOutRow.department_number
            - summedCount CountFact.totes 0 [sampleFact] sampleOutRow.department_number
        ∧ sampleOutRow.hardlines_needed
          = parLevel StoreSupplyRow.hardlines_raw [] sampleOutRow.department_number
            - summedCount CountFact.hardlines_raw 0 [sampleFact] sampleOutRow.department_number
        ∧ sampleOutRow.softlines_needed
          = parLevel StoreSupplyRow.softlines_raw [] sampleOutRow.department_number
            - summedCount CountFact.softlines_raw 0 [sampleFact] sampleOutRow.department_number)
    ∧ sampleOutRow.sleeves_needed = -5 :=
  ⟨by decide,
    run_supply_needs_deficit_formula 0 [sampleFact] [sampleRun] [] sampleOutRow (by decide),
    by decide⟩

/-- Deleting (or, read right to left, inserting) a count fact dated off the
current day anywhere in the fact table leaves the current-day filter
unchanged. -/
theorem todaysCounts_drop_stale (today : Nat) (f : CountFact)
    (pre post : List CountFact) (h : dateOf f.created_at ≠ today) :
    todaysCounts today (pre ++ f :: post) = todaysCounts today (pre ++ post) := by
  unfold todaysCounts
  simp [List.filter_append, List.filter_cons, h]

/-- The grouped totals depend on the fact table only through the current-day
filter. -/
theorem store_totals_counts_congr (today : Nat) (c1 c2 : List CountFact)
    (dept : String) (h : todaysCounts today c1 = todaysCounts today c2) :
    store_totals today c1 dept = store_totals today c2 dept := by
  unfold store_totals
  rw [h]

/-- A computed view row depends on the fact table only through the
current-day filter. -/
theorem mkRunSupplyRow_counts_congr (today : Nat) (c1 c2 : List CountFact)
    (supplies : List StoreSupplyRow) (r : DeliveryRun)
    (h : todaysCounts today c1 = todaysCounts today c2) :
    mkRunSupplyRow today c1 supplies r = mkRunSupplyRow today c2 supplies r := by
  unfold mkRunSupplyRow
  rw [store_totals_counts_congr today c1 c2 r.department_number h]

/-- C2.  A count fact dated on a day other than the current one contributes
nothing: removing it from anywhere in the fact table (equivalently, adding it
there) leaves the aggregator's entire output unchanged, row for row. -/
theorem run_supply_needs_stale_invariance (today : Nat) (f : CountFact)
    (pre post : List CountFact) (runs : List DeliveryRun)
    (supplies : List StoreSupplyRow) (h : dateOf f.created_at ≠ today) :
    run_supply_needs today (pre ++ f :: post) runs supplies
      = run_supply_needs today (pre ++ post) runs supplies := by
  unfold run_supply_needs
  have hm : mkRunSupplyRow today (pre ++ f :: post) supplies
      = mkRunSupplyRow today (pre ++ post) supplies :=
    funext (fun r =>
      mkRunSupplyRow_counts_congr today (pre ++ f :: post) (pre ++ post) supplies r
        (todaysCounts_drop_stale today f pre post h))
  rw [hm]

/-- Witness for C2: a day-1 fact inserted into a day-0 fact table changes no
output row. -/
theorem run_supply_needs_stale_invariance_witness :
    dateOf staleFact.created_at ≠ 0
    ∧ run_supply_needs 0 ([] ++ staleFact :: [sampleFact]) [sampleRun] []
        = run_supply_needs 0 ([] ++ [sampleFact]) [sampleRun] [] :=
  ⟨by decide,
    run_supply_needs_stale_invariance 0 staleFact [] [sampleFact] [sampleRun] []
      (by decide)⟩

/-- C3.  A run whose store has no supply row still yields an output row; each
of its six deficits is the negation of today's summed count for that store
(so `0` when there are no current-day facts either, the sum over the empty
list). -/
theorem run_supply_needs_missing_supply (today : Nat) (counts : List CountFact)
    (runs : List DeliveryRun) (supplies : List StoreSupplyRow) (r : DeliveryRun)
    (hr : r ∈ runs) (hd : dateOf r.created_at = today)
    (hs : storeSuppliesRow supplies r.department_number = none) :
    ∃ row ∈ run_supply_needs today counts runs supplies,
      row.run_id = r.id
      ∧ row.sleeves_needed = -summedCount CountFact.sleeves today counts r.department_number
      ∧ row.caps_needed = -summedCount CountFact.caps today counts r.department_number
      ∧ row.canvases_needed = -summedCount CountFact.canvases today counts r.department_number
      ∧ row.totes_needed = -summedCount CountFact.totes today counts r.department_number
      ∧ row.hardlines_needed = -summedCount CountFact.hardlines_raw today counts r.department_number
      ∧ row.softlines_needed = -summedCount CountFact.softlines_raw today counts r.department_number := by
  refine ⟨mkRunSupplyRow today counts supplies r, ?_, ?_⟩
  · unfold run_supply_needs
    exact List.mem_map_of_mem _ (List.mem_filter.mpr ⟨hr, by simp [hd]⟩)
  · refine ⟨rfl, ?_, ?_, ?_, ?_, ?_, ?_⟩ <;>
      simp [mkRunSupplyRow, coalesce, hs, store_totals_getD_sleeves,
        store_totals_getD_caps, store_totals_getD_canvases, store_totals_getD_totes,
        store_totals_getD_hardlines, store_totals_getD_softlines]

/-- Witness for C3: the single run's store has no supply row, and all six
deficits come out as the negated current-day sums. -/
theorem run_supply_needs_missing_supply_witness :
    sampleRun ∈ [sampleRun]
    ∧ dateOf sampleRun.created_at = 0
    ∧ storeSuppliesRow [] sampleRun.department_number = none
    ∧ ∃ row ∈ run_supply_needs 0 [sampleFact] [sampleRun] [],
        row.run_id = sampleRun.id
        ∧ row.sleeves_needed = -summedCount CountFact.sleeves 0 [sampleFact] sampleRun.department_number
        ∧ row.caps_needed = -summedCount CountFact.caps 0 [sampleFact] sampleRun.department_number
        ∧ row.canvases_needed = -summedCount CountFact.canvases 0 [sampleFact] sampleRun.department_number
        ∧ row.totes_needed = -summedCount CountFact.totes 0 [sampleFact] sampleRun.department_number
        ∧ row.hardlines_needed = -summedCount CountFact.hardlines_raw 0 [sampleFact] sampleRun.department_number
        ∧ row.softlines_needed = -summedCount CountFact.softlines_raw 0 [sampleFact] sampleRun.department_number :=
  ⟨by decide, by decide, by decide,
    run_supply_needs_missing_supply 0 [sampleFact] [sampleRun] [] sampleRun
      (by decide) (by decide) (by decide)⟩

/-- C4.  The aggregator emits exactly one row per run created on the current
date, in registry order; and (when run identifiers are unique, as for a key
column) a run created on another day has no row at all, whatever the counts
and par levels. -/
theorem run_supply_needs_today_runs_only (today : Nat) (counts : List CountFact)
    (runs : List DeliveryRun) (supplies : List StoreSupplyRow) :
    ((run_supply_needs today counts runs supplies).map RunSupplyRow.run_id
        = (runs.filter (fun r => dateOf r.created_at == today)).map DeliveryRun.id)
    ∧ ((runs.map DeliveryRun.id).Nodup →
        ∀ r ∈ runs, dateOf r.created_at ≠ today →
          ∀ row ∈ run_supply_needs today counts runs supplies,
            row.run_id ≠ r.id) := by
  constructor
  · unfold run_supply_needs
    rw [List.map_map]
    rfl
  · intro hnd r hr hneq row hrow hid
    unfold run_supply_needs at hrow
    rw [List.mem_map] at hrow
    obtain ⟨r2, hr2, rfl⟩ := hrow
    rw [List.mem_filter] at hr2
    obtain ⟨hr2mem, hr2today⟩ := hr2
    have hid2 : r2.id = r.id := hid
    have : r2 = r := List.inj_on_of_nodup_map hnd hr2mem hr hid2
    subst this
    rw [beq_iff_eq] at hr2today
    exact hneq hr2today

/-- A registry row for store 9012 created on day 1, not on day 0. -/
def yesterdayRun : DeliveryRun :=
  ⟨2, "Cheviot", "9012", "Afternoon", "Box Truck", "pending", 0,
    none, none, none, none, none, 86400⟩

/-- Witness for C4: with one day-0 run and one day-1 run, the output carries
exactly the day-0 run's identifier, and no row carries the day-1 run's. -/
theorem run_supply_needs_today_runs_only_witness :
    ((run_supply_needs 0 [sampleFact] [sampleRun, yesterdayRun] []).map RunSupplyRow.run_id
        = ([sampleRun, yesterdayRun].filter (fun r => dateOf r.created_at == 0)).map DeliveryRun.id)
    ∧ (([sampleRun, yesterdayRun].map DeliveryRun.id).Nodup
        ∧ yesterdayRun ∈ [sampleRun, yesterdayRun]
        ∧ dateOf yesterdayRun.created_at ≠ 0
        ∧ ∀ row ∈ run_supply_needs 0 [sampleFact] [sampleRun, yesterdayRun] [],
            row.run_id ≠ yesterdayRun.id) :=
  ⟨(run_supply_needs_today_runs_only 0 [sampleFact] [sampleRun, yesterdayRun] []).1,
    by decide, by decide, by decide,
    (run_supply_needs_today_runs_only 0 [sampleFact] [sampleRun, yesterdayRun] []).2
      (by decide) yesterdayRun (by decide) (by decide)⟩

/-- C5.  For every chosen store and every time-slot section label the
dashboard uses, the submitted creation request carries exactly the first
whitespace-delimited token of the label as its run-type tag, the fixed
truck-type constant, and the store's identity, name and department code. -/
theorem addRunRequest_shape (store : Store) (slot : RunTimeSlot) :
    addRunRequest store slot.label =
      { p_run_type := firstWhitespaceToken slot.label
        p_store_id := store.id
        p_store_name := store.store_name
        p_department_number := store.department_number
        p_truck_type := "box_truck" }
    ∧ (addRunRequest store RunTimeSlot.morning.label).p_run_type = "Morning" := by
  cases slot <;> exact ⟨rfl, rfl⟩

/-- String comparison of store display names is transitive. -/
theorem storeNameLe_trans (a b c : Store) (h1 : storeNameLe a b)
    (h2 : storeNameLe b c) : storeNameLe a c := by
  unfold storeNameLe at *
  rw [decide_eq_true_iff] at *
  exact le_trans h1 h2

/-- String comparison of store display names is total. -/
theorem storeNameLe_total (a b : Store) : storeNameLe a b || storeNameLe b a := by
  unfold storeNameLe
  rcases le_total a.store_name b.store_name with h | h <;> simp [h]

/-- Reverse comparison of run creation times is transitive. -/
theorem createdAtDesc_trans (a b c : RunSupplyRow) (h1 : createdAtDesc a b)
    (h2 : createdAtDesc b c) : createdAtDesc a c := by
  unfold createdAtDesc at *
  rw [decide_eq_true_iff] at *
  omega

/-- Reverse comparison of run creation times is total. -/
theorem createdAtDesc_total (a b : RunSupplyRow) :
    createdAtDesc a b || createdAtDesc b a := by
  unfold createdAtDesc
  rcases le_total b.created_at a.created_at with h | h <;> simp [h]

/-- C6.  The stores read returns all reference store rows, sorted ascending
by display name; the runs read returns all view rows, sorted by run creation
time descending (newest first). -/
theorem fetch_queries_ordered (stores : List Store) (rows : List RunSupplyRow) :
    (fetchStoresQuery stores).Perm stores
    ∧ (fetchStoresQuery stores).Pairwise (fun a b => a.store_name ≤ b.store_name)
    ∧ (fetchRunsQuery rows).Perm rows
    ∧ (fetchRunsQuery rows).Pairwise (fun a b => b.created_at ≤ a.created_at) := by
  refine ⟨List.mergeSort_perm _ _, ?_, List.mergeSort_perm _ _, ?_⟩
  · have h := List.sorted_mergeSort storeNameLe_trans storeNameLe_total stores
    exact h.imp (fun hab => by
      have := hab
      unfold storeNameLe at this
      exact of_decide_eq_true this)
  · have h := List.sorted_mergeSort createdAtDesc_trans createdAtDesc_total rows
    exact h.imp (fun hab => by
      have := hab
      unfold createdAtDesc at this
      exact of_decide_eq_true this)

/-- C7.  The aggregator is a pure read: an invocation leaves the database
state exactly as it was, and a second invocation with no intervening writes
returns the same output as the first. -/
theorem invokeAggregator_pure (s : DbState) :
    (invokeAggregator s).2 = s
    ∧ (invokeAggregator ((invokeAggregator s).2)).1 = (invokeAggregator s).1 :=
  ⟨rfl, rfl⟩

/-- C8.  A failed store read and a failed run read each leave both loaded
lists untouched (neither failure clears the other list's data), surface one
fixed generic message, and issue exactly one query with no retry. -/
theorem fetch_failure_behaviour (s : DashboardState) :
    ((fetchStoresUpdate (Except.error ()) s).runs = s.runs
      ∧ (fetchStoresUpdate (Except.error ()) s).stores = s.stores
      ∧ (fetchStoresUpdate (Except.error ()) s).error = some "Failed to fetch stores"
      ∧ (fetchStoresUpdate (Except.error ()) s).requests = s.requests + 1)
    ∧ ((fetchRunsUpdate (Except.error ()) s).runs = s.runs
      ∧ (fetchRunsUpdate (Except.error ()) s).stores = s.stores
      ∧ (fetchRunsUpdate (Except.error ()) s).error = some "Failed to fetch delivery runs"
      ∧ (fetchRunsUpdate (Except.error ()) s).requests = s.requests + 1) :=
  ⟨⟨rfl, rfl, rfl, rfl⟩, ⟨rfl, rfl, rfl, rfl⟩⟩

/-- C9.  With the Tri-County par level of 40 sleeves and two current-day count
facts summing to 15 sleeves for its department, every output row for a
Tri-County run shows 25 sleeves needed. -/
theorem tri_county_sleeves_needed (today : Nat) (counts : List CountFact)
    (runs : List DeliveryRun) (supplies : List StoreSupplyRow)
    (ssr : StoreSupplyRow) (f1 f2 : CountFact)
    (hpar : storeSuppliesRow supplies "9011" = some ssr)
    (hpar40 : ssr.sleeves = 40)
    (hfacts : (todaysCounts today counts).filter
        (fun f => f.department_number == "9011") = [f1, f2])
    (hsum : f1.sleeves + f2.sleeves = 15) :
    ∀ row ∈ run_supply_needs today counts runs supplies,
      row.department_number = "9011" → row.sleeves_needed = 25 := by
  intro row hrow hdept
  unfold run_supply_needs at hrow
  rw [List.mem_map] at hrow
  obtain ⟨r, hr, rfl⟩ := hrow
  have hd : r.department_number = "9011" := hdept
  have hsc : summedCount CountFact.sleeves today counts "9011" = 15 := by
    unfold summedCount
    rw [hfacts]
    simp
    omega
  show (mkRunSupplyRow today counts supplies r).sleeves_needed = 25
  simp only [mkRunSupplyRow, coalesce]
  rw [hd, hpar, store_totals_getD_sleeves, hsc]
  simp [hpar40]

/-- A first current-day count fact for store 9011: 7 sleeves. -/
def factA : CountFact := ⟨"9011", 0, 7, 0, 0, 0, 0, 0⟩

/-- A second current-day count fact for store 9011: 8 sleeves. -/
def factB : CountFact := ⟨"9011", 0, 8, 0, 0, 0, 0, 0⟩

/-- The migration's seed data read as par-level rows. -/
def triSupplies : List StoreSupplyRow := seedStores.map StoreTableRow.supplyRow

/-- Tri-County's par-level row from the seed data. -/
def triRow : StoreSupplyRow := ⟨"9011", 40, 80, 12, 21, 20, 45⟩

/-- Witness for C9 on the migration's own seed data: par sleeves 40, today's
facts 7 + 8 = 15, and the run's row shows 25 sleeves needed. -/
theorem tri_county_sleeves_needed_witness :
    storeSuppliesRow triSupplies "9011" = some triRow
    ∧ triRow.sleeves = 40
    ∧ (todaysCounts 0 [factA, factB]).filter
        (fun f => f.department_number == "9011") = [factA, factB]
    ∧ factA.sleeves + factB.sleeves = 15
    ∧ mkRunSupplyRow 0 [factA, factB] triSupplies sampleRun
        ∈ run_supply_needs 0 [factA, factB] [sampleRun] triSupplies
    ∧ (mkRunSupplyRow 0 [factA, factB] triSupplies sampleRun).sleeves_needed = 25 :=
  ⟨by decide, by decide, by decide, by decide, by decide,
    tri_county_sleeves_needed 0 [factA, factB] [sampleRun] triSupplies triRow
      factA factB (by decide) (by decide) (by decide) (by decide)
      (mkRunSupplyRow 0 [factA, factB] triSupplies sampleRun) (by decide) (by decide)⟩

/-- C10.  The time-slot grouping puts a fetched row into the Morning,
Afternoon or ADC group exactly when its `run_type` is that exact string, and a
row whose `run_type` is any other string (lowercase, padded, or otherwise)
lands in none of the three groups. -/
theorem groupRunsByTime_partition (runs : List RunSupplyRow) (r : RunSupplyRow) :
    (r ∈ (groupRunsByTime runs).morningRuns ↔ r ∈ runs ∧ r.run_type = "Morning")
    ∧ (r ∈ (groupRunsByTime runs).afternoonRuns ↔ r ∈ runs ∧ r.run_type = "Afternoon")
    ∧ (r ∈ (groupRunsByTime runs).adcRuns ↔ r ∈ runs ∧ r.run_type = "ADC")
    ∧ (r.run_type ≠ "Morning" → r.run_type ≠ "Afternoon" → r.run_type ≠ "ADC" →
        r ∉ (groupRunsByTime runs).morningRuns
        ∧ r ∉ (groupRunsByTime runs).afternoonRuns
        ∧ r ∉ (groupRunsByTime runs).adcRuns) := by
  unfold groupRunsByTime
  refine ⟨?_, ?_, ?_, ?_⟩ <;> simp [List.mem_filter]
  intro h1 h2 h3
  refine ⟨?_, ?_, ?_⟩ <;> intro hmem <;> tauto

/-- A fetched row whose `run_type` is the lowercase variant "morning". -/
def lowercaseRun : RunSupplyRow :=
  ⟨3, "Oakley", "9016", "morning", "Box Truck", "pending", 0,
    none, none, none, none, none, 0, 0, 0, 0, 0, 0, 0⟩

/-- Witness for C10: the lowercase-tagged row is in the fetched list but in
none of the three displayed groups. -/
theorem groupRunsByTime_partition_witness :
    lowercaseRun ∈ [lowercaseRun]
    ∧ lowercaseRun ∉ (groupRunsByTime [lowercaseRun]).morningRuns
    ∧ lowercaseRun ∉ (groupRunsByTime [lowercaseRun]).afternoonRuns
    ∧ lowercaseRun ∉ (groupRunsByTime [lowercaseRun]).adcRuns :=
  ⟨by decide,
    (groupRunsByTime_partition [lowercaseRun] lowercaseRun).2.2.2
      (by decide) (by decide) (by decide)⟩
